import Mathlib

/-!
Shallow embedding of the Recipe-Search-Api client (src/src/App.js and
src/unnamed/part_000 = Recipe.js).  The App.js source holds two variants of
the application:

* the reference variant (lines 1-58): React state `recipes`, `search`,
  `query`; `getRecipes` fetches and calls `setRecipes(data.hits)`
  unconditionally; `getSearch` commits the draft (`setQuery(search)`)
  and clears the input (`setSearch('')`); a `useEffect` with dependency
  array `[query]` re-runs `getRecipes` exactly when the rendered `query`
  value differs from the one the effect last ran for.

* the react-query variant (lines 59-478): `fetchRecipes` throws on a
  non-ok HTTP response, `useQuery` keyed by `['recipes', query]` turns
  the thrown rejection into an `error` value and caches responses per
  key; the component renders a loading view, an error view, a results
  grid or a "No recipes found" view, plus a detail modal driven by
  `selectedRecipe`.

Numbers coming from JSON (`calories`, `yield`, nutrient quantities) are
modelled as rationals; optional JSON fields as `Option`.
-/

namespace RecipeSearch

/-- A nutrient entry of `totalNutrients` (App.js lines 63-67). -/
structure Nutrient where
  label : String
  quantity : Rat
  unit : String
  deriving DecidableEq

/-- The six nutrient keys the modal's nutrition grid reads
(App.js lines 81-89 and 428-434). -/
structure TotalNutrients where
  ENERC_KCAL : Option Nutrient
  PROCNT : Option Nutrient
  FAT : Option Nutrient
  CHOCDF : Option Nutrient
  FIBTG : Option Nutrient
  NA : Option Nutrient
  deriving DecidableEq

/-- A recipe record as consumed by the component (App.js lines 69-90).
Optional JSON fields are `Option`; `yield` may moreover be present but
zero, which JavaScript treats as falsy. -/
structure Recipe where
  label : String
  image : String
  source : String
  url : String
  yield : Option Rat
  calories : Rat
  totalTime : Option Rat
  mealType : Option (List String)
  dietLabels : Option (List String)
  healthLabels : Option (List String)
  ingredientLines : Option (List String)
  totalNutrients : Option TotalNutrients
  deriving DecidableEq

/-- One element of the API response's `hits` array (App.js lines 92-94). -/
structure RecipeHit where
  recipe : Recipe
  deriving DecidableEq

/-- The parsed JSON body of an Edamam response (App.js lines 96-98). -/
structure EdamamResponse where
  hits : List RecipeHit
  deriving DecidableEq

/-- An HTTP response as `fetchRecipes` observes it: the `ok` flag and the
result of `response.json()` (which may itself reject with a parse error). -/
structure HttpResponse where
  ok : Bool
  json : Except String EdamamResponse

/-- `fetchRecipes` (App.js lines 109-118): rejects with the message
`Network response was not ok` when the response status is not ok,
otherwise awaits the JSON body and returns its `hits`.  A rejection of
`response.json()` propagates as the thrown error. -/
def fetchRecipes (r : HttpResponse) : Except String (List RecipeHit) :=
  if r.ok = false then Except.error "Network response was not ok"
  else
    match r.json with
    | Except.ok d => Except.ok d.hits
    | Except.error e => Except.error e

/-- What the network can do with one issued fetch: reject the promise
(network failure) or resolve with an HTTP response. -/
inductive NetworkOutcome where
  | reject (msg : String)
  | response (r : HttpResponse)

/-- One whole fetch cycle: a promise rejection propagates out of the
`async` query function as-is; a resolved response goes through
`fetchRecipes`. -/
def fetchCycle : NetworkOutcome → Except String (List RecipeHit)
  | NetworkOutcome.reject msg => Except.error msg
  | NetworkOutcome.response r => fetchRecipes r

/-- The slice of the `useQuery` result the component reads
(App.js line 120): `isLoading`, `error` (the thrown message) and
`data` (the settled `hits`). -/
structure QueryState where
  isLoading : Bool
  error : Option String
  data : Option (List RecipeHit)
  deriving DecidableEq

/-- How `useQuery` settles one finished fetch cycle into the state the
component reads: a thrown error becomes `error`, a returned list becomes
`data` (App.js lines 120-123). -/
def queryStateOf (out : NetworkOutcome) : QueryState :=
  match fetchCycle out with
  | Except.ok hits => { isLoading := false, error := none, data := some hits }
  | Except.error msg => { isLoading := false, error := some msg, data := none }

/-- The top-level views the component can return. -/
inductive View where
  | loading
  | errorView (msg : String)
  | resultsGrid (hits : List RecipeHit)
  | noResults
  deriving DecidableEq

/-- The component's top-level rendering (App.js lines 141-302):
`if (isLoading) return <spinner>`, then `if (error) return <error view>`,
then `recipes && recipes.length > 0 ? <grid> : <"No recipes found">`. -/
def renderMain (st : QueryState) : View :=
  if st.isLoading then View.loading
  else
    match st.error with
    | some msg => View.errorView msg
    | none =>
      match st.data with
      | some hits => if 0 < hits.length then View.resultsGrid hits else View.noResults
      | none => View.noResults

/-! ### The react-query cache (App.js lines 120-123)

`useQuery({ queryKey: ['recipes', query] })` keeps one cache entry per
query key and hands the component only the entry of the current key as
`data`.  A query function that settles writes the entry of the key it
was started for. -/

/-- The query-cache state: the current committed query (the variable part
of the query key) and the per-key cache, newest entry first. -/
structure RQState where
  query : String
  cache : List (String × List RecipeHit)

/-- Committing a query re-keys the `useQuery` subscription
(App.js line 121). -/
def commitRQ (st : RQState) (q : String) : RQState :=
  { st with query := q }

/-- A fetch started for key `q` settles successfully: the cache entry of
`q` — and only of `q` — is written. -/
def resolveRQ (st : RQState) (q : String) (hits : List RecipeHit) : RQState :=
  { st with cache := (q, hits) :: st.cache }

/-- The `data` the component sees: the cache entry of the current key. -/
def displayedRQ (st : RQState) : Option (List RecipeHit) :=
  st.cache.lookup st.query

/-! ### The reference variant (App.js lines 1-58)

State `recipes`/`search`/`query`; `useEffect(.., [query])` re-runs
`getRecipes` after a render exactly when `query` differs from the value
the effect last ran with; `getRecipes` awaits the fetch and then calls
`setRecipes(data.hits)` with no guard, so whichever pending fetch
resolves last wins. -/

/-- The reference variant's React state (App.js lines 12-14). -/
structure RefState where
  recipes : List RecipeHit
  search : String
  query : String
  deriving DecidableEq

/-- `getSearch` (App.js lines 26-30): prevent default, commit the draft
into `query`, clear the input. -/
def getSearch (st : RefState) : RefState :=
  { st with query := st.search, search := "" }

/-- `updateSearch` (App.js lines 31-33): keep the draft in sync with the
input. -/
def updateSearch (st : RefState) (s : String) : RefState :=
  { st with search := s }

/-- Events that drive the reference variant: typing into the input,
submitting the form, and the resolution of an in-flight `getRecipes`
fetch that was issued with captured query `q`. -/
inductive RefEv where
  | input (s : String)
  | submit
  | resolve (q : String) (hits : List RecipeHit)
  deriving DecidableEq

/-- The pure state change of one event.  `resolve` is
`setRecipes(data.hits)` (App.js line 24): it installs the resolved hits
unconditionally, whatever query the fetch was issued for. -/
def applyEv (st : RefState) : RefEv → RefState
  | RefEv.input s => updateSearch st s
  | RefEv.submit => getSearch st
  | RefEv.resolve _ hits => { st with recipes := hits }

/-- The reference variant plus its effect bookkeeping: `prevDeps` is the
`[query]` dependency value the effect last ran for, `fetches` the log of
queries `getRecipes` has been started with, in order. -/
structure RefSys where
  st : RefState
  prevDeps : String
  fetches : List String
  deriving DecidableEq

/-- One event followed by React's effect pass: after the re-render,
`useEffect(() => { getRecipes() }, [query])` (App.js lines 16-19) runs
`getRecipes` — logging a fetch for the now-current `query` — exactly when
`query` differs from the dependency value of the last run. -/
def refStep (sys : RefSys) (e : RefEv) : RefSys :=
  let st1 := applyEv sys.st e
  if st1.query = sys.prevDeps then { sys with st := st1 }
  else { st := st1, prevDeps := st1.query, fetches := sys.fetches ++ [st1.query] }

/-- Run a list of events. -/
def runRef (sys : RefSys) (evs : List RefEv) : RefSys :=
  evs.foldl refStep sys

/-- The reference variant's `getRecipes` on a resolved response
(App.js lines 21-25): no `response.ok` check is performed — the body is
parsed and `setRecipes(data.hits)` runs whatever the status was.  If
`response.json()` rejects, the rejection propagates out of the async
function; since the `useEffect` (lines 16-19) discards the returned
promise, it escapes as an unhandled rejection (the second component)
and the state is left unchanged. -/
def getRecipesResolve (st : RefState) (r : HttpResponse) : RefState × Option String :=
  match r.json with
  | Except.ok d => ({ st with recipes := d.hits }, none)
  | Except.error e => (st, some e)

/-- The reference variant's `getRecipes` over a whole network outcome:
`await fetch(..)` rejecting also escapes uncaught — `getRecipes` has no
try/catch and its caller ignores the promise — leaving the state
unchanged. -/
def getRecipesOutcome (st : RefState) (out : NetworkOutcome) : RefState × Option String :=
  match out with
  | NetworkOutcome.reject msg => (st, some msg)
  | NetworkOutcome.response r => getRecipesResolve st r

/-- The reference variant's rendering (App.js lines 34-55): the
component unconditionally returns the search form plus the `recipes`
div holding one card (Recipe.js) per element of `recipes` — there is no
loading, error or no-results branch in this variant. -/
def renderRef (st : RefState) : View :=
  View.resultsGrid st.recipes

/-- The mounted initial system: state `([], '', 'chicken')`
(App.js lines 12-14), the mount effect has run, so one fetch for
`chicken` is in flight. -/
def refInit : RefSys :=
  { st := { recipes := [], search := "", query := "chicken" }
    prevDeps := "chicken"
    fetches := ["chicken"] }

/-! ### The react-query variant's component state (App.js lines 104-139,
217-302, 316-473) -/

/-- The component state of the react-query variant: the controlled input,
the committed query, the modal's selected recipe, the `useQuery` result
it currently reads, and a count of fetches issued on its behalf. -/
structure MApp where
  searchTerm : String
  query : String
  selectedRecipe : Option Recipe
  qstate : QueryState
  fetchCount : Nat
  deriving DecidableEq

/-- `handleSearchSubmit` (App.js lines 129-133): prevent default, commit
the draft (`setQuery(searchTerm)`), close the modal
(`setSelectedRecipe(null)`).  It does not touch the query state itself —
the fetch, if any, is triggered by `useQuery` reacting to the key. -/
def handleSearchSubmit (s : MApp) : MApp :=
  { s with query := s.searchTerm, selectedRecipe := none }

/-- Events of the react-query variant that the claims exercise:
typing, submitting, clicking a card (whose handler receives the hit's
recipe, App.js line 223), and closing the modal (App.js lines 328 and
464). -/
inductive MEv where
  | input (t : String)
  | submit
  | select (r : Recipe)
  | closeDetail
  deriving DecidableEq

/-- One event of the react-query variant.  A submit that changes the
query key puts the subscription into its loading state and starts one
fetch; selecting a recipe and closing the modal only set
`selectedRecipe`. -/
def mStep (s : MApp) : MEv → MApp
  | MEv.input t => { s with searchTerm := t }
  | MEv.submit =>
    let s1 := handleSearchSubmit s
    if s1.query = s.query then s1
    else { s1 with qstate := { isLoading := true, error := none, data := none }
                   fetchCount := s.fetchCount + 1 }
  | MEv.select r => { s with selectedRecipe := some r }
  | MEv.closeDetail => { s with selectedRecipe := none }

/-! ### Per-serving arithmetic (App.js lines 249-256, 348-354, 436-447) -/

/-- JavaScript's `x || 4` on the `yield` field: a missing field reads as
`undefined` (falsy) and a present `0` is falsy, so both fall back to 4;
any other number is returned as-is. -/
def yieldOr4 : Option Rat → Rat
  | none => 4
  | some v => if v = 0 then 4 else v

/-- JavaScript's `Math.round`: round half toward positive infinity. -/
def jsRound (x : Rat) : Int :=
  (x + 1 / 2).floor

/-- The card's calorie figure (App.js line 254):
`Math.round(hit.recipe.calories / (hit.recipe.yield || 4))`. -/
def cardCalories (r : Recipe) : Int :=
  jsRound (r.calories / yieldOr4 r.yield)

/-- The modal's calories-per-serving figure (App.js line 352):
`Math.round(selectedRecipe.calories / (selectedRecipe.yield || 4))`. -/
def modalCalories (r : Recipe) : Int :=
  jsRound (r.calories / yieldOr4 r.yield)

/-- One cell of the modal's nutrition grid (App.js line 441):
`Math.round(value.quantity / (selectedRecipe.yield || 4))`. -/
def nutrientPerServing (r : Recipe) (value : Nutrient) : Int :=
  jsRound (value.quantity / yieldOr4 r.yield)

/-! ### Concrete fixtures used by witnesses and counterexamples -/

/-- A concrete recipe with an ordinary yield. -/
def recipeA : Recipe :=
  { label := "Pasta A", image := "a.jpg", source := "srcA", url := "urlA"
    yield := some 2, calories := 200, totalTime := some 30
    mealType := none, dietLabels := none, healthLabels := none
    ingredientLines := some ["pasta"], totalNutrients := none }

/-- A second concrete recipe, distinct from `recipeA`. -/
def recipeB : Recipe :=
  { label := "Pasta B", image := "b.jpg", source := "srcB", url := "urlB"
    yield := some 3, calories := 300, totalTime := none
    mealType := none, dietLabels := none, healthLabels := none
    ingredientLines := some ["tomato"], totalNutrients := none }

/-- A concrete recipe whose `yield` is present but `0` (falsy in
JavaScript). -/
def recipeZero : Recipe :=
  { label := "Zero Yield", image := "z.jpg", source := "srcZ", url := "urlZ"
    yield := some 0, calories := 400, totalTime := none
    mealType := none, dietLabels := none, healthLabels := none
    ingredientLines := none, totalNutrients := none }

/-- `hits` entry wrapping `recipeA`. -/
def hitA : RecipeHit := { recipe := recipeA }

/-- `hits` entry wrapping `recipeB`. -/
def hitB : RecipeHit := { recipe := recipeB }

/-- A react-query-variant component state that has settled a successful
fetch with one hit. -/
def mApp0 : MApp :=
  { searchTerm := "", query := "chicken", selectedRecipe := none
    qstate := { isLoading := false, error := none, data := some [hitA] }
    fetchCount := 1 }

/-- `mApp0` with the draft text equal to the committed query. -/
def mAppC : MApp :=
  { mApp0 with searchTerm := "chicken" }

/-- A non-ok HTTP response whose body would even have parsed. -/
def badResp : HttpResponse :=
  { ok := false, json := Except.ok ({ hits := [hitA] }) }

/-- A non-ok HTTP response whose body fails to parse as JSON. -/
def badParseResp : HttpResponse :=
  { ok := false, json := Except.error "Unexpected token" }

/-- A network failure: the fetch promise rejects. -/
def netFail : NetworkOutcome :=
  NetworkOutcome.reject "Failed to fetch"

/-- A query state carrying the non-ok error while stale hits are still
sitting in `data`. -/
def staleErrState : QueryState :=
  { isLoading := false
    error := some "Network response was not ok"
    data := some [hitA] }

/-- A mounted reference system whose draft equals the committed query. -/
def refSteady : RefSys :=
  { st := { recipes := [hitA], search := "chicken", query := "chicken" }
    prevDeps := "chicken"
    fetches := ["chicken"] }

/-! ### Claims -/

/-- C1 (counterexample, reference variant): from the mounted initial
state, commit `a` then `b`, let `b`'s fetch resolve first and `a`'s
stale fetch resolve last: the displayed `recipes` end up holding Q1's
(`a`'s) hits even though the committed query is `b`, so a resolution
whose query no longer equals the committed query does update the
displayed results. -/
theorem stale_resolution_overwrites_displayed_results :
    (runRef refInit [RefEv.input "a", RefEv.submit, RefEv.input "b", RefEv.submit,
      RefEv.resolve "b" [hitB], RefEv.resolve "a" [hitA]]).st.query = "b" ∧
    (runRef refInit [RefEv.input "a", RefEv.submit, RefEv.input "b", RefEv.submit,
      RefEv.resolve "b" [hitB], RefEv.resolve "a" [hitA]]).st.recipes = [hitA] ∧
    decide ([hitA] = [hitB]) = false := by
  decide

/-- C1 (amended): in the react-query variant, responses are cached per
query key and the component only reads the entry of the current key, so
after committing Q2, a later resolution of Q1's fetch (Q1 ≠ Q2) leaves
the displayed data at Q2's response. -/
theorem useQuery_displays_only_current_key (st : RQState) (q1 q2 : String)
    (h1 h2 : List RecipeHit) (hne : q1 ≠ q2) :
    displayedRQ (resolveRQ (resolveRQ (commitRQ st q2) q2 h2) q1 h1) = some h2 := by
  have hne2 : (q2 == q1) = false := beq_eq_false_iff_ne.mpr (Ne.symm hne)
  simp [displayedRQ, resolveRQ, commitRQ, List.lookup, hne2]

/-- Witness for C1's amended theorem at concrete queries `a` and `b`. -/
theorem useQuery_displays_only_current_key_witness :
    displayedRQ (resolveRQ (resolveRQ (commitRQ { query := "chicken", cache := [] } "b")
      "b" [hitB]) "a" [hitA]) = some [hitB] :=
  useQuery_displays_only_current_key { query := "chicken", cache := [] }
    "a" "b" [hitA] [hitB] (by decide)

/-- C2 (counterexample, reference variant): `getRecipes` performs no
`response.ok` check, and the variant has no Failure state at all: on a
non-OK response whose body fails to parse, no failure message is ever
displayed (the parse rejection escapes instead) and the previously
rendered results stay installed and visible — stale Success data
remains on screen. -/
theorem non_ok_reference_response_yields_no_failure :
    (getRecipesResolve refSteady.st badParseResp).1.recipes = [hitA] ∧
    (getRecipesResolve refSteady.st badParseResp).2 = some "Unexpected token" ∧
    renderRef (getRecipesResolve refSteady.st badParseResp).1 = View.resultsGrid [hitA] := by
  decide

/-- C2 (amended): in the react-query variant, a non-ok HTTP response
makes `fetchRecipes` fail with the human-readable message
`Network response was not ok`, and a component state carrying that
error renders the error view regardless of whatever previously fetched
data is still in `data` — no stale results grid is shown. -/
theorem non_ok_response_fails_and_hides_stale_results
    (r : HttpResponse) (st : QueryState)
    (hok : r.ok = false) (hl : st.isLoading = false)
    (herr : st.error = some "Network response was not ok") :
    fetchRecipes r = Except.error "Network response was not ok" ∧
    renderMain st = View.errorView "Network response was not ok" := by
  constructor
  · simp [fetchRecipes, hok]
  · simp [renderMain, hl, herr]

/-- Witness for C2: a non-ok response whose body even parses, and a
state still holding stale hits. -/
theorem non_ok_response_fails_and_hides_stale_results_witness :
    fetchRecipes badResp = Except.error "Network response was not ok" ∧
    renderMain staleErrState = View.errorView "Network response was not ok" :=
  non_ok_response_fails_and_hides_stale_results badResp staleErrState rfl rfl rfl

/-- C3 (counterexample, reference variant): `getRecipes` has no
try/catch and the `useEffect` discards its promise, so a network
rejection escapes the component as an unhandled promise rejection — an
error crossing the component boundary uncaught — and no Failure state
is produced: the state is left exactly as it was. -/
theorem reference_fetch_rejection_escapes_uncaught :
    (getRecipesOutcome refSteady.st netFail).2 = some "Failed to fetch" ∧
    (getRecipesOutcome refSteady.st netFail).1 = refSteady.st := by
  decide

/-- C3 (amended): in the react-query variant, every network outcome of
a fetch cycle settles inside the cycle: a rejection or non-ok response
becomes an error value that the component renders as the error view,
and every other outcome is a successful data state — no outcome escapes
as anything but these two states. -/
theorem fetch_cycle_converts_all_rejections (out : NetworkOutcome) :
    (∃ msg, fetchCycle out = Except.error msg ∧
      renderMain (queryStateOf out) = View.errorView msg) ∨
    (∃ hits, fetchCycle out = Except.ok hits ∧
      queryStateOf out = { isLoading := false, error := none, data := some hits }) := by
  cases out with
  | reject msg =>
    exact Or.inl ⟨msg, rfl, by simp [renderMain, queryStateOf, fetchCycle]⟩
  | response r =>
    cases hfr : fetchRecipes r with
    | ok hits =>
      exact Or.inr ⟨hits, by simp [fetchCycle, hfr], by simp [queryStateOf, fetchCycle, hfr]⟩
    | error msg =>
      exact Or.inl ⟨msg, by simp [fetchCycle, hfr],
        by simp [renderMain, queryStateOf, fetchCycle, hfr]⟩

/-- C4 (counterexample, reference variant): the results div is rendered
unconditionally with one card per hit and the variant has no no-results
branch, so resolving a successful response with an empty hits list
renders the empty grid — not a "no results" affordance. -/
theorem reference_empty_hits_render_empty_grid :
    renderRef (applyEv refSteady.st (RefEv.resolve "chicken" [])) =
      View.resultsGrid [] ∧
    decide (View.resultsGrid ([] : List RecipeHit) = View.noResults) = false := by
  decide

/-- C4 (amended): in the react-query variant, a settled success with an
empty hits list renders the `No recipes found` view, and every state
that renders the results grid has a nonempty hits list — the grid is
never rendered empty. -/
theorem empty_results_render_no_results_view :
    renderMain { isLoading := false, error := none, data := some [] } = View.noResults ∧
    ∀ st hits, renderMain st = View.resultsGrid hits → 0 < hits.length := by
  constructor
  · rfl
  · intro st hits h
    rcases st with ⟨il, err, dat⟩
    cases il with
    | true => simp [renderMain] at h
    | false =>
      cases err with
      | some m => simp [renderMain] at h
      | none =>
        cases dat with
        | none => simp [renderMain] at h
        | some hs =>
          by_cases hlen : 0 < hs.length
          · have hh : hs = hits := by simpa [renderMain, hlen] using h
            exact hh ▸ hlen
          · simp [renderMain, hlen] at h

/-- Witness for C4's grid conjunct at a one-hit state. -/
theorem empty_results_render_no_results_view_witness :
    0 < [hitA].length :=
  empty_results_render_no_results_view.2
    { isLoading := false, error := none, data := some [hitA] } [hitA] rfl

/-- C5: `handleSearchSubmit` copies the current draft into the committed
query and clears the selected recipe. -/
theorem commit_copies_draft_and_clears_selection (s : MApp) :
    (handleSearchSubmit s).query = s.searchTerm ∧
    (handleSearchSubmit s).selectedRecipe = none :=
  ⟨rfl, rfl⟩

/-- C6: from a steady mounted state whose last-fetched query is
nonempty, typing an empty draft and submitting is not rejected: it
commits the empty query and issues a fetch for it, exactly like any
other query change. -/
theorem empty_commit_still_fetches (sys : RefSys)
    (hq : sys.st.query = sys.prevDeps) (hne : sys.prevDeps ≠ "") :
    (runRef sys [RefEv.input "", RefEv.submit]).fetches = sys.fetches ++ [""] ∧
    (runRef sys [RefEv.input "", RefEv.submit]).st.query = "" := by
  have hne2 : ("" : String) ≠ sys.prevDeps := Ne.symm hne
  constructor <;>
    simp [runRef, refStep, applyEv, updateSearch, getSearch, hq, hne2]

/-- Witness for C6 at the mounted initial system (query `chicken`). -/
theorem empty_commit_still_fetches_witness :
    (runRef refInit [RefEv.input "", RefEv.submit]).fetches = refInit.fetches ++ [""] ∧
    (runRef refInit [RefEv.input "", RefEv.submit]).st.query = "" :=
  empty_commit_still_fetches refInit rfl (by decide)

/-- C7 (counterexample): from the mounted initial state (one fetch for
`chicken` already logged), typing `chicken` and resubmitting leaves the
fetch log at exactly `[chicken]` — no redundant identical fetch is
issued, because the effect's `[query]` dependency is unchanged. -/
theorem resubmitting_unchanged_query_adds_no_fetch :
    (runRef refInit [RefEv.input "chicken", RefEv.submit]).fetches = ["chicken"] ∧
    (runRef refInit [RefEv.input "chicken", RefEv.submit]).st.query = "chicken" := by
  decide

/-- C7 (amended): a submit whose draft equals the query the effect last
fetched for leaves the fetch log unchanged, a submit with a different
draft appends exactly one fetch for it, and in the react-query variant a
submit that leaves the query key unchanged starts no new fetch. -/
theorem resubmit_deduplicated_by_deps (sys : RefSys) (s : MApp) :
    (sys.st.search = sys.prevDeps →
      (refStep sys RefEv.submit).fetches = sys.fetches) ∧
    (sys.st.search ≠ sys.prevDeps →
      (refStep sys RefEv.submit).fetches = sys.fetches ++ [sys.st.search]) ∧
    (s.searchTerm = s.query →
      (mStep s MEv.submit).fetchCount = s.fetchCount) := by
  refine ⟨fun h => ?_, fun h => ?_, fun h => ?_⟩
  · simp [refStep, applyEv, getSearch, h]
  · simp [refStep, applyEv, getSearch, h]
  · simp [mStep, handleSearchSubmit, h]

/-- Witness for C7's amended theorem: an unchanged resubmission in both
variants. -/
theorem resubmit_deduplicated_by_deps_witness :
    (refStep refSteady RefEv.submit).fetches = refSteady.fetches ∧
    (mStep mAppC MEv.submit).fetchCount = mAppC.fetchCount :=
  ⟨(resubmit_deduplicated_by_deps refSteady mAppC).1 rfl,
   (resubmit_deduplicated_by_deps refSteady mAppC).2.2 rfl⟩

/-- C8: with a settled success holding `hits`, selecting card `i` sets
the selected recipe to the already-fetched record `i` while the query
state and the fetch count stay unchanged, and closing the detail view
then clears the selection, again leaving the query state and fetch count
unchanged. -/
theorem select_and_close_preserve_fetch_state (s : MApp) (hits : List RecipeHit)
    (i : Nat) (h : i < hits.length) (_hdata : s.qstate.data = some hits) :
    (mStep s (MEv.select (hits.get ⟨i, h⟩).recipe)).selectedRecipe =
      some (hits.get ⟨i, h⟩).recipe ∧
    (mStep s (MEv.select (hits.get ⟨i, h⟩).recipe)).qstate = s.qstate ∧
    (mStep s (MEv.select (hits.get ⟨i, h⟩).recipe)).fetchCount = s.fetchCount ∧
    (mStep (mStep s (MEv.select (hits.get ⟨i, h⟩).recipe)) MEv.closeDetail).selectedRecipe
      = none ∧
    (mStep (mStep s (MEv.select (hits.get ⟨i, h⟩).recipe)) MEv.closeDetail).qstate
      = s.qstate ∧
    (mStep (mStep s (MEv.select (hits.get ⟨i, h⟩).recipe)) MEv.closeDetail).fetchCount
      = s.fetchCount :=
  ⟨rfl, rfl, rfl, rfl, rfl, rfl⟩

/-- Witness for C8: select the only hit of `mApp0` and close the
modal. -/
theorem select_and_close_preserve_fetch_state_witness :
    (mStep (mStep mApp0 (MEv.select recipeA)) MEv.closeDetail).selectedRecipe = none ∧
    (mStep (mStep mApp0 (MEv.select recipeA)) MEv.closeDetail).qstate = mApp0.qstate :=
  ⟨(select_and_close_preserve_fetch_state mApp0 [hitA] 0 (by decide) rfl).2.2.2.1,
   (select_and_close_preserve_fetch_state mApp0 [hitA] 0 (by decide) rfl).2.2.2.2.1⟩

/-- C9: in the reference variant, `getSearch` not only commits the draft
into `query` but also resets the draft `search` text to the empty
string. -/
theorem reference_commit_clears_draft (st : RefState) :
    (getSearch st).search = "" ∧ (getSearch st).query = st.search :=
  ⟨rfl, rfl⟩

/-- C10: the card, modal and nutrient figures all divide by
`yield || 4`, and that divisor is never zero: a missing or zero yield is
replaced by 4, and any other yield is itself nonzero. -/
theorem per_serving_divisor_nonzero (r : Recipe) (value : Nutrient) :
    yieldOr4 r.yield ≠ 0 ∧
    cardCalories r = jsRound (r.calories / yieldOr4 r.yield) ∧
    modalCalories r = cardCalories r ∧
    nutrientPerServing r value = jsRound (value.quantity / yieldOr4 r.yield) := by
  refine ⟨?_, rfl, rfl, rfl⟩
  cases hy : r.yield with
  | none =>
    simp [yieldOr4]
  | some v =>
    by_cases hv : v = 0
    · simp [yieldOr4, hv]
    · simp [yieldOr4, hv]

/-- Witness for C10 at the recipe whose yield is the falsy value 0. -/
theorem per_serving_divisor_nonzero_witness :
    yieldOr4 recipeZero.yield ≠ 0 :=
  (per_serving_divisor_nonzero recipeZero
    { label := "Energy", quantity := 100, unit := "kcal" }).1

end RecipeSearch
